import Mathlib

/-!
Shallow embedding of the glean repository (rust sources under
`glean-core/rlb/src/lib.rs`, `glean-core/ffi/src/upload.rs`,
`glean-core/ffi/src/version.rs`) together with theorems settling the
specification claims about it.

Conventions:
* Rust structs become Lean structures; Rust enums become inductives.
* Raw `*mut c_char` buffers crossing the FFI boundary are modelled as
  `Nat` identifiers handed out by an allocation counter, so that
  "each allocation is matched by exactly one release" is expressible.
* Observable effects (logging, spawning, engine calls, dispatcher calls)
  are recorded in an explicit event trace.
* Machine integers (`u32` upload-result scalars) are modelled as `Nat`;
  all values involved are far below `2^32`, so no wrap-around arises.
-/

namespace GleanCore

/-! ## FFI upload layer (`glean-core/ffi/src/upload.rs`) -/

/-- `UPLOAD_RESULT_RECOVERABLE` (upload.rs:18): a recoverable error. -/
def UPLOAD_RESULT_RECOVERABLE : Nat := 0x1

/-- `UPLOAD_RESULT_UNRECOVERABLE` (upload.rs:21): an unrecoverable error. -/
def UPLOAD_RESULT_UNRECOVERABLE : Nat := 0x2

/-- `UPLOAD_RESULT_HTTP_STATUS` (upload.rs:26): a HTTP response code.
The actual response code is encoded in the lower bits. -/
def UPLOAD_RESULT_HTTP_STATUS : Nat := 0x8000

/-- The three outcome categories of an attempted ping upload
(`UploadResult`, spec section 3; the defining enum lives in
`glean-core/src/upload/result.rs`). -/
inductive UploadResult where
  | httpStatus (code : Nat)
  | recoverableFailure
  | unrecoverableFailure
deriving Repr, DecidableEq

/-- Modelled from the spec: the scalar encoding of `UploadResult`
(`glean-core/src/upload/result.rs` is not among the provided sources; the
spec says "Encoded as a small integer with disjoint high bits for the three
categories and status code packed in low bits when applicable", and
upload.rs:16-27 provides the three region constants). -/
def encodeUploadResult : UploadResult → Nat
  | UploadResult.httpStatus code => UPLOAD_RESULT_HTTP_STATUS ||| code
  | UploadResult.recoverableFailure => UPLOAD_RESULT_RECOVERABLE
  | UploadResult.unrecoverableFailure => UPLOAD_RESULT_UNRECOVERABLE

/-- Recovering the category and the embedded status code from the scalar:
the HTTP-status region is recognised by its high bit, the status code is
read back from the low bits. -/
def decodeUploadResult (n : Nat) : Option UploadResult :=
  if n.testBit 15 then
    some (UploadResult.httpStatus (n &&& (UPLOAD_RESULT_HTTP_STATUS - 1)))
  else if n = UPLOAD_RESULT_RECOVERABLE then
    some UploadResult.recoverableFailure
  else if n = UPLOAD_RESULT_UNRECOVERABLE then
    some UploadResult.unrecoverableFailure
  else
    none

/-- A ping upload request, at the interface used by upload.rs:49-64:
a document id, an upload path, and pre-serialized body and headers. -/
structure PingRequest where
  document_id : String
  path : String
  body : String
  headers : String
deriving Repr, DecidableEq

/-- `glean_core::upload::PingUploadTask` (spec section 3): the three task
kinds handed to the uploader. -/
inductive PingUploadTask where
  | upload (request : PingRequest)
  | wait
  | done
deriving Repr, DecidableEq

/-- `FfiPingUploadTask` (upload.rs:35-44). The four `*mut c_char` string
buffers of the `Upload` variant are modelled as allocation identifiers. -/
inductive FfiPingUploadTask where
  | upload (document_id path body headers : Nat)
  | wait
  | done
deriving Repr, DecidableEq

/-- `From<PingUploadTask> for FfiPingUploadTask` (upload.rs:46-70).
`next` is the allocator state: converting an `Upload` task allocates four
fresh string buffers (`CString::into_raw` four times); `Wait` and `Done`
allocate nothing.  Returns the converted task, the list of buffers
allocated by the conversion, and the new allocator state. -/
def fromPingUploadTask (next : Nat) (task : PingUploadTask) :
    FfiPingUploadTask × List Nat × Nat :=
  match task with
  | PingUploadTask.upload _request =>
      (FfiPingUploadTask.upload next (next + 1) (next + 2) (next + 3),
       [next, next + 1, next + 2, next + 3], next + 4)
  | PingUploadTask.wait => (FfiPingUploadTask.wait, [], next)
  | PingUploadTask.done => (FfiPingUploadTask.done, [], next)

/-- `Drop for FfiPingUploadTask` (upload.rs:72-90): the buffers released
(via `glean_str_free`) when the value is destroyed. -/
def dropFfiPingUploadTask : FfiPingUploadTask → List Nat
  | FfiPingUploadTask.upload document_id path body headers =>
      [document_id, path, body, headers]
  | FfiPingUploadTask.wait => []
  | FfiPingUploadTask.done => []

/-- `IntoFfi::ffi_default` for `FfiPingUploadTask` (upload.rs:96-98):
the fallback value produced on conversion failure at the boundary. -/
def ffiDefault : FfiPingUploadTask := FfiPingUploadTask.done

/-- `IntoFfi::into_ffi_value` (upload.rs:101-103). -/
def intoFfiValue (task : FfiPingUploadTask) : FfiPingUploadTask := task

/-! ## Version query (`glean-core/ffi/src/version.rs`) -/

/-- The C NUL character terminating C strings. -/
def nulChar : Char := Char.ofNat 0

/-- `CString::new` at the interface used by version.rs:40: fails (returns
`none`) iff the input contains an interior NUL byte, otherwise yields the
NUL-terminated buffer. -/
def cstringNew (s : List Char) : Option (List Char) :=
  if s.contains nulChar then none else some (s ++ [nulChar])

/-- `VERSION_PTR` (version.rs:38-42): computed once per process from the
compile-time `VERSION` value (`option_env!("CARGO_PKG_VERSION")`, modelled
as the parameter `version`); `none` models the null pointer
(`VERSION.and_then(|s| CString::new(s).ok()).map_or(null, into_raw)`). -/
def versionPtr (version : Option (List Char)) : Option (List Char) :=
  version.bind cstringNew

/-- `glean_get_version` (version.rs:31-33): takes no run-time data, returns
the cached `VERSION_PTR`.  The `_call` index distinguishes successive calls
within one process; the function is total (never panics). -/
def gleanGetVersion (version : Option (List Char)) (_call : Nat) :
    Option (List Char) :=
  versionPtr version

/-! ## Rust language bindings (`glean-core/rlb/src/lib.rs`) -/

/-- `ClientInfoMetrics` at the interface used by lib.rs
(`client_info.app_build`, `client_info.app_display_version`). -/
structure ClientInfoMetrics where
  app_build : String
  app_display_version : String
deriving Repr, DecidableEq

/-- `Configuration` at the interface used by lib.rs:129-136 and the crate
doc example (lib.rs:21-28). -/
structure Configuration where
  data_path : String
  application_id : String
  upload_enabled : Bool
  max_events : Option Nat
  delay_ping_lifetime_io : Bool
  channel : Option String
deriving Repr, DecidableEq

/-- `RustBindingsState` (lib.rs:60-66). -/
structure RustBindingsState where
  channel : Option String
  client_info : ClientInfoMetrics
deriving Repr, DecidableEq

/-- The application-lifetime core client metrics written by
`initialize_core_metrics` (lib.rs:243-267); `none` = not set. -/
structure InternalMetrics where
  app_build : Option String
  app_display_version : Option String
  app_channel : Option String
  os_version : Option String
  architecture : Option String
  device_manufacturer : Option String
  device_model : Option String
deriving Repr, DecidableEq

/-- The registry with every core metric unset. -/
def InternalMetrics.empty : InternalMetrics :=
  ⟨none, none, none, none, none, none, none⟩

/-- Modelled from the spec: the `glean_core::Glean` metrics engine is an
external collaborator (spec section 1, "out of scope ... specified only at
their interface"); this structure holds exactly the observable state behind
the interface calls lib.rs makes (spec section 6, "Core → Metrics engine"). -/
structure Glean where
  upload_enabled : Bool
  dirty_flag : Bool
  first_run : Bool
  pending_pings : Bool
  registered_pings : List String
  core_metrics : InternalMetrics
deriving Repr, DecidableEq

/-- Engine call `glean.is_dirty_flag_set()` (lib.rs:169). -/
def isDirtyFlagSet (g : Glean) : Bool := g.dirty_flag

/-- Engine call `glean.set_dirty_flag(value)` (lib.rs:170). -/
def setDirtyFlag (g : Glean) (value : Bool) : Glean :=
  {g with dirty_flag := value}

/-- Engine call `glean.register_ping_type(..)` (lib.rs:177-179, 313). -/
def registerPingTypeEngine (g : Glean) (name : String) : Glean :=
  {g with registered_pings := g.registered_pings ++ [name]}

/-- Engine call `glean.is_first_run()` (lib.rs:187). -/
def isFirstRun (g : Glean) : Bool := g.first_run

/-- Engine call `glean.on_ready_to_submit_pings()` (lib.rs:193). -/
def onReadyToSubmitPings (g : Glean) : Bool := g.pending_pings

/-- Engine call `glean.clear_application_lifetime_metrics()` (lib.rs:218). -/
def clearApplicationLifetimeMetrics (g : Glean) : Glean :=
  {g with core_metrics := InternalMetrics.empty}

/-- Engine call `glean.is_upload_enabled()` (lib.rs:291). -/
def isUploadEnabled (g : Glean) : Bool := g.upload_enabled

/-- Engine call `glean.set_upload_enabled(enabled)` (lib.rs:292). -/
def setUploadEnabledEngine (g : Glean) (enabled : Bool) : Glean :=
  {g with upload_enabled := enabled}

/-- `system::ARCH` (a compile-time platform constant used at lib.rs:262). -/
def systemArch : String := "ARCH"

/-- `initialize_core_metrics` (lib.rs:243-267): sets the application-lifetime
core client metrics from the client info and channel. -/
def initializeCoreMetrics (g : Glean) (client_info : ClientInfoMetrics)
    (channel : Option String) : Glean :=
  let m0 := g.core_metrics
  let m1 := {m0 with app_build := some client_info.app_build}
  let m2 := {m1 with app_display_version := some client_info.app_display_version}
  let m3 := match channel with
    | some app_channel => {m2 with app_channel := some app_channel}
    | none => m2
  let m4 := {m3 with os_version := some "unknown"}
  let m5 := {m4 with architecture := some systemArch}
  let m6 := {m5 with device_manufacturer := some "unknown"}
  let m7 := {m6 with device_model := some "unknown"}
  {g with core_metrics := m7}

/-- The operations the rlb public API hands to `dispatcher::launch`
(the closures at lib.rs:288, 311, 331). -/
inductive QueuedOp where
  | setUploadEnabledOp (enabled : Bool)
  | registerPingTypeOp (name : String)
  | submitPingByNameOp (ping : String) (reason : Option String)
deriving Repr, DecidableEq

/-- Observable effects of the rlb layer: log lines, thread spawns, engine
calls, dispatcher calls. -/
inductive Event where
  | logError (msg : String)
  | spawnStartupThread
  | engineConstruct (ok : Bool)
  | engineSetup (ok : Bool)
  | setupState
  | readDirtyFlag (value : Bool)
  | writeDirtyFlag (value : Bool)
  | registerPing (name : String)
  | initCoreMetrics
  | onReadyToSubmit (pings_submitted : Bool)
  | submitPing (ping : String) (reason : String)
  | clearAppLifetime
  | flushInit
  | launch (op : QueuedOp)
deriving Repr, DecidableEq

/-- `true` iff the event is a ping submission handed to the engine. -/
def Event.isSubmitPing : Event → Bool
  | Event.submitPing _ _ => true
  | _ => false

/-- Process-wide state of the rlb layer: `INITIALIZE_CALLED` (lib.rs:71),
`STATE` (lib.rs:76), the global `Glean` engine singleton installed by
`setup_glean`, the dispatcher's pre-init queue and flush flag, and the
number of startup threads spawned so far. -/
structure LibState where
  initializeCalled : Bool
  state : Option RustBindingsState
  glean : Option Glean
  queue : List QueuedOp
  flushed : Bool
  spawned : Nat
deriving Repr, DecidableEq

/-- The state at process start: nothing initialized, nothing queued. -/
def initialLibState : LibState := ⟨false, none, none, [], false, 0⟩

/-- `was_initialize_called` (lib.rs:239-241). -/
def wasInitializeCalled (st : LibState) : Bool := st.initializeCalled

/-- Modelled from the spec: `dispatcher::launch` (the `dispatcher` module's
source file is not among the provided files; spec section 4.2: `launch(op)`
appends the operation to the single ordered queue and returns immediately,
with no result observable by the submitter). -/
def launchOp (op : QueuedOp) (st : LibState) : LibState × List Event :=
  ({st with queue := st.queue ++ [op]}, [Event.launch op])

/-- Modelled from the spec: `dispatcher::flush_init` as called at
lib.rs:224-226 (the `dispatcher` module's source file is not among the
provided files; spec section 4.2: `flush_init` releases the buffered
operations and returns an error if called more than once, which the call
site only logs). -/
def flushInitCall (st : LibState) : LibState × List Event :=
  if st.flushed then
    (st, [Event.flushInit, Event.logError "Unable to flush the preinit queue"])
  else
    ({st with flushed := true}, [Event.flushInit])

/-- The body of the background startup thread spawned by `initialize`
(the closure at lib.rs:128-227).  External outcomes are parameters:
`newGlean` is the result of `Glean::new(core_cfg)` (lib.rs:138-143,
`none` = construction error) and `setupOk` the result of
`glean_core::setup_glean` (lib.rs:147-149). -/
def startupThreadBody (cfg : Configuration) (client_info : ClientInfoMetrics)
    (newGlean : Option Glean) (setupOk : Bool) (st : LibState) :
    LibState × List Event :=
  match newGlean with
  | none =>
      -- lib.rs:142: construction failed, early return (logged by glean-core)
      (st, [Event.engineConstruct false])
  | some g0 =>
    if setupOk then
      -- lib.rs:147: setup_glean installs the engine as the global singleton
      let st1 : LibState := {st with glean := some g0}
      -- lib.rs:154-157: setup_state
      let bindings : RustBindingsState :=
        {channel := cfg.channel, client_info := client_info}
      let st2 : LibState := {st1 with state := some bindings}
      -- lib.rs:161-221: with_glean_mut closure, reading the just-set state
      let dirty_flag := isDirtyFlagSet g0
      let g1 := setDirtyFlag g0 false
      let g2 := registerPingTypeEngine g1 "baseline"
      let g3 := registerPingTypeEngine g2 "metrics"
      let g4 := registerPingTypeEngine g3 "events"
      let is_first_run := isFirstRun g4
      let g5 := if is_first_run then
          initializeCoreMetrics g4 bindings.client_info bindings.channel
        else g4
      let pings_submitted := onReadyToSubmitPings g5
      -- lib.rs:198-200: `if pings_submitted || !upload_enabled` — body is a
      -- TODO (bug 1672958), no effect
      -- lib.rs:210-212: `if !is_first_run && dirty_flag` — body is a TODO
      -- (bug 1672958, submit_ping_by_name_sync("baseline", "dirty_startup")
      -- commented out), no effect
      let g6 := if !is_first_run then
          initializeCoreMetrics (clearApplicationLifetimeMetrics g5)
            bindings.client_info bindings.channel
        else g5
      let st3 : LibState := {st2 with glean := some g6}
      -- lib.rs:224-226: flush_init, logging on error
      let flushed := flushInitCall st3
      (flushed.1,
        [Event.engineConstruct true, Event.engineSetup true, Event.setupState,
         Event.readDirtyFlag dirty_flag, Event.writeDirtyFlag false,
         Event.registerPing "baseline", Event.registerPing "metrics",
         Event.registerPing "events"]
        ++ (if is_first_run then [Event.initCoreMetrics] else [])
        ++ [Event.onReadyToSubmit pings_submitted]
        ++ (if !is_first_run then [Event.clearAppLifetime, Event.initCoreMetrics]
            else [])
        ++ flushed.2)
    else
      -- lib.rs:148: setup_glean failed, early return
      (st, [Event.engineConstruct true, Event.engineSetup false])

/-- The public `initialize` entry point (lib.rs:122-232), in the sequential
model: the gate check (lib.rs:123-126), the thread spawn (lib.rs:128,
recorded in `spawned`; the thread body is `startupThreadBody`, run
asynchronously), and the `INITIALIZE_CALLED` store (lib.rs:231). -/
def initializeApi (_cfg : Configuration) (_client_info : ClientInfoMetrics)
    (st : LibState) : LibState × List Event :=
  if wasInitializeCalled st then
    (st, [Event.logError "Glean should not be initialized multiple times"])
  else
    ({st with spawned := st.spawned + 1, initializeCalled := true},
     [Event.spawnStartupThread])

/-- The public `set_upload_enabled` entry point (lib.rs:272-306): rejected
with a log line before `initialize` was called, otherwise the closure is
handed to `dispatcher::launch`. -/
def setUploadEnabledApi (enabled : Bool) (st : LibState) : LibState × List Event :=
  if !wasInitializeCalled st then
    (st, [Event.logError "Changing upload enabled before Glean is initialized is not supported."])
  else
    launchOp (QueuedOp.setUploadEnabledOp enabled) st

/-- The public `register_ping_type` entry point (lib.rs:309-316):
unconditionally hands the closure to `dispatcher::launch`. -/
def registerPingTypeApi (ping : String) (st : LibState) : LibState × List Event :=
  launchOp (QueuedOp.registerPingTypeOp ping) st

/-- The public `submit_ping_by_name` entry point (lib.rs:328-334):
unconditionally hands the closure to `dispatcher::launch`. -/
def submitPingByNameApi (ping : String) (reason : Option String)
    (st : LibState) : LibState × List Event :=
  launchOp (QueuedOp.submitPingByNameOp ping reason) st

/-- The dispatched closure of `set_upload_enabled` (lib.rs:288-305), run
against the engine and the global bindings state once the queue executes it. -/
def setUploadEnabledTask (enabled : Bool) (g : Glean)
    (state : RustBindingsState) : Glean × List Event :=
  let old_enabled := isUploadEnabled g
  let g1 := setUploadEnabledEngine g enabled
  if !old_enabled && enabled then
    (initializeCoreMetrics g1 state.client_info state.channel,
     [Event.initCoreMetrics])
  else
    (g1, [])

/-! ## Interleaving model of the `initialize` gate (lib.rs:122-232)

Each caller of `initialize` performs three atomic actions, in program
order: the `INITIALIZE_CALLED` load of the gate check (lib.rs:123), the
`thread::spawn` of the startup sequence (lib.rs:128), and the
`INITIALIZE_CALLED` store (lib.rs:231).  A schedule picks which caller
performs its next atomic action. -/

/-- The program counter of one `initialize` caller. -/
inductive InitPhase where
  | ready
  | passedGate
  | spawnedThread
  | finished
deriving Repr, DecidableEq

/-- Shared gate state plus the program counter of every concurrent caller
of `initialize`. -/
structure RaceState where
  initializeCalled : Bool
  spawned : Nat
  threads : List InitPhase
deriving Repr, DecidableEq

/-- One atomic action of caller `i` (no effect for an out-of-range index or
a finished caller). -/
def raceStep (st : RaceState) (i : Nat) : RaceState :=
  match st.threads[i]? with
  | none => st
  | some InitPhase.ready =>
      if st.initializeCalled then
        -- lib.rs:123-126: gate observed set, log and return, no mutation
        {st with threads := st.threads.set i InitPhase.finished}
      else
        {st with threads := st.threads.set i InitPhase.passedGate}
  | some InitPhase.passedGate =>
      -- lib.rs:128: spawn the startup sequence
      {st with spawned := st.spawned + 1,
               threads := st.threads.set i InitPhase.spawnedThread}
  | some InitPhase.spawnedThread =>
      -- lib.rs:231: INITIALIZE_CALLED.store(true)
      {st with initializeCalled := true,
               threads := st.threads.set i InitPhase.finished}
  | some InitPhase.finished => st

/-- Run a schedule of atomic actions from a race state. -/
def runRace (sched : List Nat) (st : RaceState) : RaceState :=
  sched.foldl raceStep st

/-- Two callers of `initialize`, neither having acted yet. -/
def twoCallers : RaceState := ⟨false, 0, [InitPhase.ready, InitPhase.ready]⟩

/-- `true` iff the task is the buffer-carrying `Upload` variant. -/
def FfiPingUploadTask.isUpload : FfiPingUploadTask → Bool
  | FfiPingUploadTask.upload _ _ _ _ => true
  | _ => false

/-- A sample configuration (the crate doc example, lib.rs:21-28). -/
def cfgEx : Configuration :=
  ⟨"/tmp/data", "org.mozilla.glean_core.example", true, none, false, some "release"⟩

/-- Sample client info. -/
def ciEx : ClientInfoMetrics := ⟨"build-1", "1.0.0"⟩

/-- An engine state for a non-first run whose previous run left the dirty
flag set. -/
def gEx : Glean := ⟨true, true, false, false, [], InternalMetrics.empty⟩

/-- A lib state in which `initialize` has already completed its call
(`INITIALIZE_CALLED` set, one startup thread spawned). -/
def stCalled : LibState := ⟨true, none, none, [], false, 1⟩

/-! ## Helper lemmas -/

/-- Setting a power-of-two bit above every bit of `c` is plain addition. -/
theorem two_pow_lor_eq_add {n c : Nat} (h : c < 2 ^ n) : 2 ^ n ||| c = 2 ^ n + c := by
  apply Nat.eq_of_testBit_eq
  intro i
  rw [Nat.testBit_lor]
  rcases Nat.lt_trichotomy i n with hi | hi | hi
  · rw [Nat.testBit_two_pow_of_ne (by omega), Nat.testBit_two_pow_add_gt hi]
    simp
  · subst hi
    rw [Nat.testBit_two_pow_self, Nat.testBit_two_pow_add_eq,
      Nat.testBit_lt_two_pow h]
    simp
  · have hc : c < 2 ^ i :=
      lt_of_lt_of_le h (Nat.pow_le_pow_right (by omega) (Nat.le_of_lt hi))
    have hsum : 2 ^ n + c < 2 ^ i := by
      have h1 : 2 ^ (n + 1) = 2 ^ n * 2 := Nat.pow_succ 2 n
      have h2 : 2 ^ (n + 1) ≤ 2 ^ i := Nat.pow_le_pow_right (by omega) (by omega)
      omega
    rw [Nat.testBit_lt_two_pow hsum, Nat.testBit_two_pow_of_ne (by omega),
      Nat.testBit_lt_two_pow hc]
    simp

/-! ## Claim theorems -/

/-- Claim C1 (code bug).  The claim states that among any number of
concurrent calls to `initialize`, exactly one wins the init gate and spawns
the startup sequence.  The gate in lib.rs is a plain load (lib.rs:123)
followed, after the spawn, by a store (lib.rs:231) — not an atomic
read-modify-write — so under the interleaving in which both callers run
their gate load before either runs its store, both callers pass the gate
and both spawn a startup thread.  The last conjunct shows the gate does
work once a store precedes the other caller's load, so the double spawn is
precisely the data race. -/
theorem init_gate_race_double_spawn :
    (runRace [0, 1, 0, 0, 1, 1] twoCallers).spawned = 2 ∧
    (runRace [0, 1, 0, 0, 1, 1] twoCallers).initializeCalled = true ∧
    (runRace [0, 0, 0, 1] twoCallers).spawned = 1 := by
  decide

/-- Claim C2 (confirmed).  For every sequential pair of `initialize` calls
where the first has already completed (`INITIALIZE_CALLED` set), the second
call logs an error and returns unchanged: no startup thread is spawned, so
no second metrics-engine construction occurs (lib.rs:123-126). -/
theorem second_initialize_is_noop (cfg : Configuration)
    (ci : ClientInfoMetrics) (st : LibState)
    (h : st.initializeCalled = true) :
    initializeApi cfg ci st =
      (st, [Event.logError "Glean should not be initialized multiple times"]) ∧
    (initializeApi cfg ci st).1.spawned = st.spawned := by
  simp [initializeApi, wasInitializeCalled, h]

/-- Witness for `second_initialize_is_noop` at a state where `initialize`
already completed. -/
theorem second_initialize_is_noop_witness :
    stCalled.initializeCalled = true ∧
    (initializeApi cfgEx ciEx stCalled =
      (stCalled, [Event.logError "Glean should not be initialized multiple times"]) ∧
    (initializeApi cfgEx ciEx stCalled).1.spawned = stCalled.spawned) :=
  ⟨rfl, second_initialize_is_noop cfgEx ciEx stCalled rfl⟩

/-- Claim C3 (counterexample).  The claim states that every call to each of
`initialize`, `set_upload_enabled`, `register_ping_type` and
`submit_ping_by_name` is accepted unconditionally and routed through the
dispatcher's `launch`.  At the concrete pre-initialization state:
`set_upload_enabled` is rejected with a log line and dispatches nothing
(lib.rs:273-280), `initialize` dispatches nothing through `launch` (it
spawns its own thread, lib.rs:128), and a second `initialize` call is
rejected rather than accepted. -/
theorem api_routing_pre_init_counterexample :
    (setUploadEnabledApi true initialLibState).1 = initialLibState ∧
    (setUploadEnabledApi true initialLibState).2 =
      [Event.logError "Changing upload enabled before Glean is initialized is not supported."] ∧
    (initializeApi cfgEx ciEx initialLibState).1.queue = [] ∧
    (initializeApi cfgEx ciEx initialLibState).2 = [Event.spawnStartupThread] ∧
    (initializeApi cfgEx ciEx (initializeApi cfgEx ciEx initialLibState).1).2 =
      [Event.logError "Glean should not be initialized multiple times"] := by
  refine ⟨rfl, rfl, rfl, rfl, rfl⟩

/-- Claim C3 (amended).  `register_ping_type` and `submit_ping_by_name` are
accepted unconditionally and routed through the dispatcher's `launch`;
`set_upload_enabled` is routed through `launch` only when `initialize` was
already called and otherwise logs an error and dispatches nothing;
`initialize` is never routed through `launch` — when it is the first call
it spawns the startup thread directly, otherwise it logs an error.  None of
the four operations returns a result to the caller. -/
theorem api_routing_amended (st : LibState) (e : Bool) (p n : String)
    (r : Option String) (cfg : Configuration) (ci : ClientInfoMetrics) :
    (registerPingTypeApi p st).1.queue =
      st.queue ++ [QueuedOp.registerPingTypeOp p] ∧
    (registerPingTypeApi p st).2 =
      [Event.launch (QueuedOp.registerPingTypeOp p)] ∧
    (submitPingByNameApi n r st).1.queue =
      st.queue ++ [QueuedOp.submitPingByNameOp n r] ∧
    (submitPingByNameApi n r st).2 =
      [Event.launch (QueuedOp.submitPingByNameOp n r)] ∧
    (setUploadEnabledApi e st).1.queue =
      (if st.initializeCalled then st.queue ++ [QueuedOp.setUploadEnabledOp e]
       else st.queue) ∧
    (setUploadEnabledApi e st).2 =
      (if st.initializeCalled then [Event.launch (QueuedOp.setUploadEnabledOp e)]
       else [Event.logError "Changing upload enabled before Glean is initialized is not supported."]) ∧
    (initializeApi cfg ci st).1.queue = st.queue ∧
    (initializeApi cfg ci st).2 =
      (if st.initializeCalled
       then [Event.logError "Glean should not be initialized multiple times"]
       else [Event.spawnStartupThread]) := by
  refine ⟨rfl, rfl, rfl, rfl, ?_, ?_, ?_, ?_⟩ <;>
    cases hst : st.initializeCalled <;>
      simp [setUploadEnabledApi, initializeApi, wasInitializeCalled, launchOp, hst]

/-- Claim C4 (code bug).  The claim states that on a non-first run whose
persisted dirty flag was set, the startup sequence triggers a baseline
"dirty_startup" ping after the hand-off to the ping-submission path and
before `flush_init`.  On exactly such a run the trace reads the dirty flag
as set, reaches the hand-off and the non-first-run branch, and calls
`flush_init` — yet contains no ping submission at all: the submission at
lib.rs:210-212 is a commented-out TODO (bug 1672958), contradicting the
comment above it (lib.rs:207-209) that announces the submission. -/
theorem dirty_startup_ping_not_submitted :
    Event.readDirtyFlag true ∈
      (startupThreadBody cfgEx ciEx (some gEx) true initialLibState).2 ∧
    Event.onReadyToSubmit false ∈
      (startupThreadBody cfgEx ciEx (some gEx) true initialLibState).2 ∧
    Event.clearAppLifetime ∈
      (startupThreadBody cfgEx ciEx (some gEx) true initialLibState).2 ∧
    Event.flushInit ∈
      (startupThreadBody cfgEx ciEx (some gEx) true initialLibState).2 ∧
    ((startupThreadBody cfgEx ciEx (some gEx) true initialLibState).2.any
      Event.isSubmitPing) = false := by
  decide

/-- Claim C5 (confirmed).  If metrics-engine construction fails
(`Glean::new` returns an error, lib.rs:138-143), the startup thread
returns at once: the global state cell stays unpopulated, `flush_init` is
never called (the trace is exactly the failed construction), the dispatcher
flush flag is untouched, and the init gate — set by the `initialize` caller
itself at lib.rs:231 — remains in the started state.  The model is a total
function, so the abort is a return, not a panic. -/
theorem construction_failure_degraded_mode (cfg : Configuration)
    (ci : ClientInfoMetrics) (st : LibState) (setupOk : Bool)
    (h1 : st.initializeCalled = false) (h2 : st.state = none) :
    startupThreadBody cfg ci none setupOk (initializeApi cfg ci st).1 =
      ({st with spawned := st.spawned + 1, initializeCalled := true},
       [Event.engineConstruct false]) ∧
    ((initializeApi cfg ci st).1).initializeCalled = true ∧
    (startupThreadBody cfg ci none setupOk (initializeApi cfg ci st).1).1.state
      = none ∧
    (startupThreadBody cfg ci none setupOk (initializeApi cfg ci st).1).1.flushed
      = st.flushed := by
  have hcall : initializeApi cfg ci st =
      ({st with spawned := st.spawned + 1, initializeCalled := true},
       [Event.spawnStartupThread]) := by
    simp [initializeApi, wasInitializeCalled, h1]
  rw [hcall]
  simp [startupThreadBody, h2]

/-- Witness for `construction_failure_degraded_mode` at the fresh process
state. -/
theorem construction_failure_degraded_mode_witness :
    initialLibState.initializeCalled = false ∧ initialLibState.state = none ∧
    startupThreadBody cfgEx ciEx none true
        (initializeApi cfgEx ciEx initialLibState).1 =
      ({initialLibState with spawned := initialLibState.spawned + 1,
                             initializeCalled := true},
       [Event.engineConstruct false]) :=
  ⟨rfl, rfl,
    (construction_failure_degraded_mode cfgEx ciEx initialLibState true rfl rfl).1⟩

/-- Claim C6 (confirmed).  Destroying an `FfiPingUploadTask` releases
exactly the buffers its conversion allocated: for the `Upload` variant the
four string buffers, each exactly once (they are pairwise distinct fresh
allocations, and the released list equals the allocated list); for `Wait`
and `Done` nothing is allocated and nothing is released
(upload.rs:46-70, 72-90). -/
theorem upload_task_buffers_released_exactly_once (next : Nat)
    (task : PingUploadTask) (a b c d : Nat) :
    dropFfiPingUploadTask (fromPingUploadTask next task).1 =
      (fromPingUploadTask next task).2.1 ∧
    List.Nodup (fromPingUploadTask next task).2.1 ∧
    dropFfiPingUploadTask (FfiPingUploadTask.upload a b c d) = [a, b, c, d] ∧
    dropFfiPingUploadTask FfiPingUploadTask.wait = [] ∧
    dropFfiPingUploadTask FfiPingUploadTask.done = [] := by
  refine ⟨?_, ?_, rfl, rfl, rfl⟩
  · cases task <;> rfl
  · cases task <;> simp [fromPingUploadTask]

/-- Claim C7 (confirmed).  The fallback value produced on conversion
failure at the FFI boundary is the terminal `Done` variant — a plain value
of the task type, not an exception — it is not the buffer-carrying `Upload`
variant, and destroying it releases nothing, so nothing needs releasing
(upload.rs:92-104). -/
theorem ffi_default_is_done_no_buffers :
    ffiDefault = FfiPingUploadTask.done ∧
    FfiPingUploadTask.isUpload ffiDefault = false ∧
    dropFfiPingUploadTask ffiDefault = [] ∧
    intoFfiValue ffiDefault = FfiPingUploadTask.done :=
  ⟨rfl, rfl, rfl, rfl⟩

/-- Claim C8 (confirmed).  The three scalar regions
(`UPLOAD_RESULT_RECOVERABLE`, `UPLOAD_RESULT_UNRECOVERABLE`,
`UPLOAD_RESULT_HTTP_STATUS`) occupy pairwise-disjoint bits; for every HTTP
status code representable in the low bits (below the HTTP-status flag) the
three encoded category values are pairwise distinct, and both category and
code are recovered from the single scalar by `decodeUploadResult`
(upload.rs:16-27). -/
theorem upload_result_encoding_faithful (code : Nat)
    (h : code < UPLOAD_RESULT_HTTP_STATUS) :
    UPLOAD_RESULT_RECOVERABLE &&& UPLOAD_RESULT_UNRECOVERABLE = 0 ∧
    UPLOAD_RESULT_RECOVERABLE &&& UPLOAD_RESULT_HTTP_STATUS = 0 ∧
    UPLOAD_RESULT_UNRECOVERABLE &&& UPLOAD_RESULT_HTTP_STATUS = 0 ∧
    encodeUploadResult (UploadResult.httpStatus code) ≠
      encodeUploadResult UploadResult.recoverableFailure ∧
    encodeUploadResult (UploadResult.httpStatus code) ≠
      encodeUploadResult UploadResult.unrecoverableFailure ∧
    encodeUploadResult UploadResult.recoverableFailure ≠
      encodeUploadResult UploadResult.unrecoverableFailure ∧
    decodeUploadResult (encodeUploadResult (UploadResult.httpStatus code)) =
      some (UploadResult.httpStatus code) ∧
    decodeUploadResult (encodeUploadResult UploadResult.recoverableFailure) =
      some UploadResult.recoverableFailure ∧
    decodeUploadResult (encodeUploadResult UploadResult.unrecoverableFailure) =
      some UploadResult.unrecoverableFailure := by
  have h15 : UPLOAD_RESULT_HTTP_STATUS = 2 ^ 15 := by
    norm_num [UPLOAD_RESULT_HTTP_STATUS]
  have h' : code < 2 ^ 15 := h15 ▸ h
  have henc : encodeUploadResult (UploadResult.httpStatus code) =
      2 ^ 15 + code := by
    simp only [encodeUploadResult, h15]
    exact two_pow_lor_eq_add h'
  refine ⟨by decide, by decide, by decide, ?_, ?_, by decide, ?_, by decide,
    by decide⟩
  · rw [henc]
    simp only [encodeUploadResult, UPLOAD_RESULT_RECOVERABLE]
    omega
  · rw [henc]
    simp only [encodeUploadResult, UPLOAD_RESULT_UNRECOVERABLE]
    omega
  · rw [henc]
    have ht : (2 ^ 15 + code).testBit 15 = true := by
      rw [Nat.testBit_two_pow_add_eq, Nat.testBit_lt_two_pow h']
      rfl
    have hmask : (2 ^ 15 + code) &&& (UPLOAD_RESULT_HTTP_STATUS - 1) = code := by
      rw [h15]
      have hmod := Nat.and_pow_two_sub_one_eq_mod (2 ^ 15 + code) 15
      omega
    simp only [decodeUploadResult]
    rw [if_pos ht, hmask]

/-- Witness for `upload_result_encoding_faithful` at status code 404. -/
theorem upload_result_encoding_faithful_witness :
    404 < UPLOAD_RESULT_HTTP_STATUS ∧
    decodeUploadResult (encodeUploadResult (UploadResult.httpStatus 404)) =
      some (UploadResult.httpStatus 404) :=
  ⟨by decide,
    (upload_result_encoding_faithful 404 (by decide)).2.2.2.2.2.2.1⟩

/-- Claim C9 (confirmed).  `glean_get_version` takes no run-time argument,
is a total function (never panics), returns the same value for every pair
of calls within one process, and that value is either null or an immutable
NUL-terminated string with no interior NUL (version.rs:30-42). -/
theorem version_query_stable_and_nul_terminated
    (version : Option (List Char)) (c1 c2 : Nat) :
    gleanGetVersion version c1 = gleanGetVersion version c2 ∧
    (gleanGetVersion version c1 = none ∨
      ∃ s, gleanGetVersion version c1 = some (s ++ [nulChar]) ∧
        s.contains nulChar = false) := by
  refine ⟨rfl, ?_⟩
  cases version with
  | none => exact Or.inl rfl
  | some s =>
    by_cases hnul : s.contains nulChar = true
    · have hm : nulChar ∈ s := List.mem_of_elem_eq_true hnul
      exact Or.inl (by simp [gleanGetVersion, versionPtr, cstringNew, hm])
    · have hm : nulChar ∉ s := fun hmem => hnul (List.elem_eq_true_of_mem hmem)
      exact Or.inr ⟨s,
        by simp [gleanGetVersion, versionPtr, cstringNew, hm],
        by simpa using hnul⟩

/-- Claim C10 (confirmed).  The dispatched operation of
`set_upload_enabled(enabled)` re-initializes the application-lifetime core
client metrics if and only if upload was previously disabled and `enabled`
is true; it always records the new upload flag, and in every other case
(disabling, or re-enabling when already enabled) the core metrics are left
untouched (lib.rs:288-305). -/
theorem upload_toggle_reinitializes_core_metrics_iff (enabled : Bool)
    (g : Glean) (s : RustBindingsState) :
    (Event.initCoreMetrics ∈ (setUploadEnabledTask enabled g s).2 ↔
      (g.upload_enabled = false ∧ enabled = true)) ∧
    (setUploadEnabledTask enabled g s).1.upload_enabled = enabled ∧
    (setUploadEnabledTask enabled g s).1.core_metrics =
      (if g.upload_enabled = false ∧ enabled = true
       then (initializeCoreMetrics (setUploadEnabledEngine g enabled)
          s.client_info s.channel).core_metrics
       else g.core_metrics) := by
  cases hg : g.upload_enabled <;> cases enabled <;>
    simp [setUploadEnabledTask, isUploadEnabled, setUploadEnabledEngine,
      initializeCoreMetrics, hg]

end GleanCore
